import Mathlib

/-!
Verification of the chatllama RLHF trainer core (trainer.py, base_model.py,
reward.py) against its natural-language specification.

The Python source is shallowly embedded: tensors indexed per record become
lists of rationals, token sequences become lists of naturals, text becomes
lists of characters, opaque state dictionaries become natural-number blobs,
and control flow (branches, early returns, caught exceptions) becomes
explicit case analysis on the inputs that drive it.
-/

namespace Chatllama

/-! ## Model-family compatibility check (trainer.py, check_model_family) -/

/-- Python single-character str.split: cut a character list at every
occurrence of the separator; the empty text yields one empty piece, and a
trailing or leading separator yields an empty piece on that side, exactly
as in Python. -/
def splitChar (sep : Char) : List Char → List (List Char)
  | [] => [[]]
  | c :: cs =>
    let rest := splitChar sep cs
    if c = sep then [] :: rest
    else
      match rest with
      | r :: rs => (c :: r) :: rs
      | [] => [[c]]

/-- Embeds the namespace stripping of check_model_family (trainer.py lines
120-123): if a slash occurs in the model name the name is replaced by the
second slash-separated component, as Python name.split("/")[1]. -/
def stripNamespace (name : String) : List Char :=
  match splitChar '/' name.toList with
  | _ :: second :: _ => second
  | _ => name.toList

/-- Embeds the family normalization of check_model_family (trainer.py line
126): the part of the stripped name before the first hyphen, as Python
name.split("-")[0]. -/
def familyName (name : String) : List Char :=
  (splitChar '-' (stripNamespace name)).headD []

/-- Embeds check_model_family (trainer.py lines 101-134), with the external
hf_models catalog (imported from chatllama.rlhf.model_list, whose file is
not under src/) abstracted as an explicit list argument, so every theorem
about it holds for any catalog contents. Both names in the catalog: compare
normalized family names; neither in the catalog: True; exactly one: False. -/
def check_model_family (hf_models : List String) (model1 model2 : String) : Bool :=
  if hf_models.contains model1 && hf_models.contains model2 then
    familyName model1 == familyName model2
  else if !hf_models.contains model1 && !hf_models.contains model2 then
    true
  else
    false

/-! ## Per-example value loss (trainer.py lines 651-656) -/

/-- torch.clamp on rationals: clamp x into the interval from lo to hi. -/
def clampQ (x lo hi : ℚ) : ℚ :=
  min (max x lo) hi

/-- Embeds the per-example value loss of RLTrainer.learn (trainer.py lines
651-656): value_loss_clipped is old_values plus the clamp of
values - old_values into the critic_eps_clip interval; the loss is the
elementwise maximum of the squared errors of the clipped and unclipped
value against the reward. -/
def valueLossExample (old_values values rewards critic_eps_clip : ℚ) : ℚ :=
  let value_loss_clipped :=
    old_values + clampQ (values - old_values) (-critic_eps_clip) critic_eps_clip
  let value_loss1 := (value_loss_clipped - rewards) ^ 2
  let value_loss2 := (values - rewards) ^ 2
  max value_loss1 value_loss2

/-! ## Reward dataset item (reward.py, RewardDataset.__getitem__) -/

/-- A JSON score field: null or a numeric value (modelled as a rational). -/
inductive JsonScore
  | null : JsonScore
  | num : ℚ → JsonScore
deriving DecidableEq

/-- One record of the reward dataset JSON file. -/
structure RewardRecord where
  user_input : String
  completion : String
  score : JsonScore
deriving DecidableEq

/-- Python truthiness of the score field, as tested by
RewardDataset.__getitem__ (reward.py line 111): None is falsy and a number
is falsy exactly when it is zero. -/
def scoreTruthy : JsonScore → Bool
  | .null => false
  | .num q => q != 0

/-- Python float(score) on a numeric score (reward.py line 112); only
reached when the score is truthy, hence never on null. -/
def scoreToFloat : JsonScore → ℚ
  | .null => 0
  | .num q => q

/-- Embeds RewardDataset.__getitem__ (reward.py lines 108-117): the item is
the pair of user_input concatenated with completion, and the score converted
to float if the stored score is truthy, else the fixed neutral score 2.5. -/
def rewardDatasetGetItem (r : RewardRecord) : String × ℚ :=
  let score := if scoreTruthy r.score then scoreToFloat r.score else 5 / 2
  (r.user_input ++ r.completion, score)

/-! ## PPO advantage computation (trainer.py lines 610-630), per record -/

/-- Embeds the advantage computation of RLTrainer.learn (trainer.py lines
610-630) for one experience record. The guard is
check_model_family(config.actor, config.critic); the same-family branch
(gamma-discounting followed by mean/std normalization, lines 611-625)
divides by a real-valued standard deviation and is abstracted as the
function parameter sameFamilyAdv, since the claim under study concerns only
the different-family branch. That else branch (line 629) is embedded
exactly: advantages = rewards - old_values[:, -1], i.e. every stored
per-step reward minus the last old value estimate, with no discounting and
no normalization. -/
def learnAdvantages (sameFamily : Bool)
    (sameFamilyAdv : List ℚ → List ℚ → List ℚ)
    (rewards old_values : List ℚ) : List ℚ :=
  if sameFamily then sameFamilyAdv rewards old_values
  else rewards.map (fun r => r - old_values.getLastD 0)

/-! ## action_len_critic in ActorCritic.generate (trainer.py lines 271-296) -/

/-- Embeds the action_len_critic assignment of ActorCritic.generate: with a
shared tokenizer it is the number of generated action tokens
(actions.shape[1], lines 271 and 277); with different tokenizers it is
states_critic.shape[1] (line 296), the number of prompt tokens under the
critic encoding. -/
def generateActionLenCritic (use_same_tokenizer : Bool)
    (actions states_critic : List ℕ) : ℕ :=
  if use_same_tokenizer then actions.length
  else states_critic.length

/-- Follows the spec's words, for comparison with generateActionLenCritic:
the number of generated (action) tokens under the critic encoding is the
length of the full critic-side sequence (prompt plus re-encoded completion)
minus the length of the critic-encoded prompt. -/
def criticGeneratedTokenCount (states_critic sequences_critic : List ℕ) : ℕ :=
  sequences_critic.length - states_critic.length

/-! ## Distributed-training dispatch in RLTrainer.learn (trainer.py 641-695) -/

/-- The three mutually exclusive distributed-training modes of the trainer. -/
inductive TrainMode
  | deepspeed
  | accelerate
  | native
deriving DecidableEq

/-- Embeds the backward-dispatch branching of RLTrainer.learn (trainer.py
lines 665-681): deepspeed if deepspeed_enable, else accelerate if
accelerate_enable, else the native PyTorch path. -/
def activeTrainMode (deepspeed_enable accelerate_enable : Bool) : TrainMode :=
  if deepspeed_enable then .deepspeed
  else if accelerate_enable then .accelerate
  else .native

/-- Embeds which scalar each mode passes to its backward call in
RLTrainer.learn: deepspeed calls model_engine.backward(loss) (line 667) and
accelerate calls accelerator.backward(loss) (line 673), both on
loss = policy_loss + value_loss (line 662), while the native PyTorch path
calls value_loss.backward() (line 679). -/
def backwardLossArg (mode : TrainMode) (policy_loss value_loss : ℚ) : ℚ :=
  match mode with
  | .deepspeed => policy_loss + value_loss
  | .accelerate => policy_loss + value_loss
  | .native => value_loss

/-- A loss value that may be NaN, modelled as an Option: none stands for a
not-a-number float, some q for an ordinary value, so torch.isnan is
Option.isNone. -/
def lossIsNaN (x : Option ℚ) : Bool :=
  x.isNone

/-- Embeds the tail of one mini-batch iteration of RLTrainer.learn
(trainer.py lines 641-681): torch.isnan(policy_loss) raises ValueError
(lines 642-643) before the value-loss NaN check, torch.isnan(value_loss)
raises ValueError (lines 658-659) before the backward block, and only when
neither raises does the iteration reach the backward and optimizer-step
calls of the active mode, returned here as the list of performed calls. An
error result models the uncaught ValueError: no backward call and no
optimizer step runs, and nothing catches or retries it inside learn. -/
def learnUpdate (policy_loss value_loss : Option ℚ) (mode : TrainMode) :
    Except String (List String) :=
  if lossIsNaN policy_loss then .error "Policy Loss is nan"
  else if lossIsNaN value_loss then .error "Value loss is nan"
  else .ok (match mode with
    | .deepspeed => ["model_engine.backward", "model_engine.step"]
    | .accelerate =>
        ["optimizer.zero_grad", "accelerator.backward",
         "optimizer.step", "scheduler.step"]
    | .native =>
        ["optimizer.zero_grad", "value_loss.backward",
         "optimizer.step", "scheduler.step"])

/-! ## Checkpointing (base_model.py, BaseTrainer.save_checkpoint and
BaseTrainer.load_checkpoint), specialized to the ActorCritic trainer whose
config is a Config instance. Opaque state dictionaries are modelled as
natural-number blobs. -/

/-- The trainer state read and mutated by the checkpoint methods: optimizer,
scheduler, actor and critic state dictionaries, plus the training stats. -/
structure TrainerState where
  optimizerState : ℕ
  schedulerState : ℕ
  actorState : ℕ
  criticState : ℕ
  trainingStats : ℕ
deriving DecidableEq

/-- The non-deepspeed checkpoint mapping written for the ActorCritic trainer
(base_model.py lines 654-666); each field is the value stored under the
checkpoint key of the same name. The lora flags are Option so that
checkpoints without those keys are representable, since load_checkpoint
tests key presence (lines 758 and 769). -/
structure RLCheckpoint where
  model : ℕ
  critic : ℕ
  optimizer : ℕ
  scheduler : ℕ
  training_stats : ℕ
  episode : ℕ
  lora_peft : Option Bool
  critic_lora_peft : Option Bool
deriving DecidableEq

/-- Embeds the non-deepspeed save_checkpoint branch for the ActorCritic
trainer (base_model.py lines 651-666). Lines 658-659 of the source read
"optimizer": self.scheduler.state_dict() and
"scheduler": self.optimizer.state_dict(), so the scheduler state is stored
under the optimizer key and the optimizer state under the scheduler key. -/
def save_checkpoint_rl (s : TrainerState) (actor_lora critic_lora : Bool)
    (current_episode : ℕ) : RLCheckpoint :=
  { model := s.actorState
    critic := s.criticState
    optimizer := s.schedulerState
    scheduler := s.optimizerState
    training_stats := s.trainingStats
    episode := current_episode
    lora_peft := some actor_lora
    critic_lora_peft := some critic_lora }

/-- The actor-lora or critic-lora incompatibility tested by load_checkpoint
(base_model.py lines 758-779): a lora key is present in the checkpoint and
differs from the currently configured flag. -/
def loraMismatch (c : RLCheckpoint) (actor_lora critic_lora : Bool) : Bool :=
  (c.lora_peft.map (fun b => b != actor_lora)).getD false ||
  (c.critic_lora_peft.map (fun b => b != critic_lora)).getD false

/-- Embeds the non-deepspeed load_checkpoint for the ActorCritic trainer
(base_model.py lines 683-808). The argument found drives the file-system and
deserialization outcomes: none means no checkpoint path exists (fall through
to line 808); some none means the path exists but torch.load raises, the
exception being caught at lines 737-747 where a warning is logged and (0, 0)
is returned with nothing mutated; some (some c) means deserialization
succeeded. In that case lines 750-751 first overwrite the optimizer and
scheduler state from the checkpoint, then the lora compatibility checks
(lines 758-779) may return (0, 0) early, and otherwise the actor and critic
weights are loaded and (episode, 0) returned (lines 781-785); the training
stats are untouched on every path of this branch. Returns the resume cursor
together with the post-call trainer state. -/
def load_checkpoint_rl (s : TrainerState) (actor_lora critic_lora : Bool)
    (found : Option (Option RLCheckpoint)) : (ℕ × ℕ) × TrainerState :=
  match found with
  | none => ((0, 0), s)
  | some none => ((0, 0), s)
  | some (some c) =>
    let s1 : TrainerState :=
      { s with optimizerState := c.optimizer, schedulerState := c.scheduler }
    if (c.lora_peft.map (fun b => b != actor_lora)).getD false then
      ((0, 0), s1)
    else if (c.critic_lora_peft.map (fun b => b != critic_lora)).getD false then
      ((0, 0), s1)
    else
      ((c.episode, 0), { s1 with actorState := c.model, criticState := c.critic })

/-- The client state stored in a deepspeed checkpoint (base_model.py lines
637-645): either an episode index or an epoch and step pair. -/
inductive DsClientState
  | episodeState : ℕ → DsClientState
  | epochStep : ℕ → ℕ → DsClientState
deriving DecidableEq

/-- Embeds the deepspeed branch of load_checkpoint (base_model.py lines
708-732), which returns only a cursor: no checkpoint path gives (0, 0); a
path whose model_engine.load_checkpoint raises is caught at lines 711-721
and gives (0, 0); otherwise the cursor is read from the client state. -/
def load_checkpoint_ds (found : Option (Option DsClientState)) : ℕ × ℕ :=
  match found with
  | none => (0, 0)
  | some none => (0, 0)
  | some (some (.episodeState e)) => (e, 0)
  | some (some (.epochStep e st)) => (e, st)

/-! ## Shared helper lemmas -/

/-- On a nonempty list, getLastD agrees with getLast. -/
theorem getLastD_eq_getLast {α : Type} (l : List α) (h : l ≠ []) (d : α) :
    l.getLastD d = l.getLast h := by
  rw [List.getLastD_eq_getLast?, List.getLast?_eq_getLast _ h]
  rfl

/-! ## Claim theorems -/

/-- Claim C1, counterexample. The claim states that with actor and critic
from different model families the advantage of every record is the final
(last-position) reward minus the last old value estimate. For a record with
stored rewards [0, 10] and old values [3], final reward minus last old value
is 7, yet the code (trainer.py line 629) subtracts the last old value from
every per-step reward, producing [-3, 7], whose first entry is not 7. The
catalog ["gpt2"] with models "gpt2" and "llama" makes the family check
false, selecting the branch under study. -/
theorem C1_counterexample :
    ¬ (∀ a ∈ learnAdvantages (check_model_family ["gpt2"] "gpt2" "llama")
          (fun _ _ => []) [0, 10] [3],
        a = [(0 : ℚ), 10].getLastD 0 - [(3 : ℚ)].getLastD 0) := by
  have hc : check_model_family ["gpt2"] "gpt2" "llama" = false := by decide
  rw [hc]
  intro h
  have hm : (-3 : ℚ) ∈ learnAdvantages false (fun _ _ => []) [0, 10] [3] := by
    norm_num [learnAdvantages]
  have h2 := h (-3) hm
  norm_num at h2

/-- Claim C1, amended. Whenever the actor and critic configurations do not
belong to the same model family, the advantage vector of a record is the
elementwise difference of the stored per-step rewards and the last old value
estimate — each position's reward, not only the final one, minus the last
old value — with no gamma-discounting and no mean/std normalization
applied. -/
theorem C1_diff_family_advantage (hf_models : List String)
    (actor_model critic_model : String)
    (sameFamilyAdv : List ℚ → List ℚ → List ℚ)
    (rewards old_values : List ℚ)
    (h : check_model_family hf_models actor_model critic_model = false)
    (hov : old_values ≠ []) :
    learnAdvantages (check_model_family hf_models actor_model critic_model)
        sameFamilyAdv rewards old_values =
      rewards.map (fun r => r - old_values.getLast hov) := by
  rw [h]
  unfold learnAdvantages
  simp only [Bool.false_eq_true, if_false]
  congr 1
  funext r
  rw [getLastD_eq_getLast _ hov]

/-- Witness for C1_diff_family_advantage at a concrete input: catalog
["gpt2"], actor "gpt2", critic "llama", rewards [0, 10], old values [3]. -/
theorem C1_diff_family_advantage_witness :
    learnAdvantages (check_model_family ["gpt2"] "gpt2" "llama")
        (fun _ _ => []) [0, 10] [3] = [-3, 7] := by
  rw [C1_diff_family_advantage ["gpt2"] "gpt2" "llama" (fun _ _ => [])
    [0, 10] [3] (by decide) (by decide)]
  norm_num

/-- Claim C2: the stored action_len_critic should equal the number of
generated tokens under the critic encoding also when actor and critic use
different tokenizers. With different tokenizers the code stores the critic
prompt length instead (trainer.py line 296, despite the comment above it):
for a critic prompt of 3 tokens and a re-encoded critic-side full sequence
of 10 tokens the generated-token count under the critic encoding is 7, yet
the stored value is 3. -/
theorem C2_action_len_critic_is_prompt_len :
    generateActionLenCritic false [9, 9, 9, 9] [1, 2, 3] = 3 ∧
    criticGeneratedTokenCount [1, 2, 3] [1, 2, 3, 4, 5, 6, 7, 8, 9, 10] = 7 ∧
    generateActionLenCritic false [9, 9, 9, 9] [1, 2, 3] ≠
      criticGeneratedTokenCount [1, 2, 3] [1, 2, 3, 4, 5, 6, 7, 8, 9, 10] := by
  decide

/-- Claim C3: the backward pass should receive the combined loss
(policy_loss + value_loss) in each of the three distributed-training modes.
The deepspeed and accelerate modes do pass the combined loss, but the
native PyTorch mode (selected when both flags are off) calls backward on
value_loss alone: with policy_loss 1 and value_loss 0 the combined loss is
1 while the native backward call receives 0. -/
theorem C3_native_backward_not_combined :
    activeTrainMode false false = TrainMode.native ∧
    backwardLossArg TrainMode.deepspeed 1 0 = 1 + 0 ∧
    backwardLossArg TrainMode.accelerate 1 0 = 1 + 0 ∧
    backwardLossArg TrainMode.native 1 0 ≠ (1 : ℚ) + 0 := by
  refine ⟨rfl, rfl, rfl, ?_⟩
  norm_num [backwardLossArg]

/-- Claim C4, counterexample. The claim states that on a lora-flag mismatch
load_checkpoint returns the cursor (0, 0) and leaves all trainer state
unchanged. Loading a checkpoint whose actor lora flag is true into a trainer
configured with false does return (0, 0), but the trainer state differs from
its pre-load state: the optimizer and scheduler state were already
overwritten from the checkpoint (base_model.py lines 750-751) before the
flag check. -/
theorem C4_counterexample :
    (load_checkpoint_rl ⟨0, 0, 0, 0, 0⟩ false false
        (some (some ⟨10, 11, 12, 13, 14, 7, some true, some false⟩))).1 = (0, 0) ∧
    (load_checkpoint_rl ⟨0, 0, 0, 0, 0⟩ false false
        (some (some ⟨10, 11, 12, 13, 14, 7, some true, some false⟩))).2 ≠
      ⟨0, 0, 0, 0, 0⟩ := by
  constructor
  · rfl
  · decide

/-- Claim C4, amended. On any actor or critic lora-flag mismatch the
non-deepspeed ActorCritic load_checkpoint returns the fresh-start cursor
(0, 0) and leaves the model weights and training stats unchanged, but the
optimizer and scheduler state have already been overwritten with the
checkpoint's stored values: the fallback is not a fully untouched fresh
start. -/
theorem C4_mismatch_mutates_optimizer (s : TrainerState)
    (actor_lora critic_lora : Bool) (c : RLCheckpoint)
    (h : loraMismatch c actor_lora critic_lora = true) :
    load_checkpoint_rl s actor_lora critic_lora (some (some c)) =
      ((0, 0),
        { s with optimizerState := c.optimizer, schedulerState := c.scheduler }) := by
  unfold loraMismatch at h
  by_cases h1 : (c.lora_peft.map (fun b => b != actor_lora)).getD false = true
  · simp [load_checkpoint_rl, h1]
  · rw [Bool.not_eq_true] at h1
    have h2 : (c.critic_lora_peft.map (fun b => b != critic_lora)).getD false = true := by
      rcases Bool.or_eq_true_iff.mp h with h' | h'
      · rw [h1] at h'; exact absurd h' (by decide)
      · exact h'
    simp [load_checkpoint_rl, h1, h2]

/-- Witness for C4_mismatch_mutates_optimizer at a concrete input: the
checkpoint stores optimizer entry 12 and scheduler entry 13 and a mismatched
actor lora flag; the pre-load state is all zeros. -/
theorem C4_mismatch_mutates_optimizer_witness :
    load_checkpoint_rl ⟨0, 0, 0, 0, 0⟩ false false
        (some (some ⟨10, 11, 12, 13, 14, 7, some true, some false⟩)) =
      ((0, 0), ⟨12, 13, 0, 0, 0⟩) :=
  C4_mismatch_mutates_optimizer ⟨0, 0, 0, 0, 0⟩ false false
    ⟨10, 11, 12, 13, 14, 7, some true, some false⟩ (by decide)

/-- Claim C5: a non-distributed checkpoint should store the optimizer's
state under the optimizer key and the scheduler's state under the scheduler
key. For the ActorCritic trainer the code swaps them (base_model.py lines
658-659): saving a state whose optimizer blob is 1 and scheduler blob is 2
stores 2 under the optimizer key and 1 under the scheduler key, and a
subsequent load therefore restores the optimizer from the scheduler's saved
state (here 2, not 1). -/
theorem C5_checkpoint_swaps_optimizer_scheduler :
    (save_checkpoint_rl ⟨1, 2, 3, 4, 5⟩ false false 0).optimizer = 2 ∧
    (save_checkpoint_rl ⟨1, 2, 3, 4, 5⟩ false false 0).scheduler = 1 ∧
    (load_checkpoint_rl ⟨1, 2, 3, 4, 5⟩ false false
        (some (some (save_checkpoint_rl ⟨1, 2, 3, 4, 5⟩ false false
          0)))).2.optimizerState = 2 := by
  decide

/-- Claim C6: for every corrupted (non-deserializable) checkpoint file, the
deserialization failure is caught, load_checkpoint returns the fresh-start
cursor (0, 0) without mutating any trainer state, and no exception reaches
the caller — in the embedding both load functions are total and the corrupt
case returns normally. -/
theorem C6_corrupted_checkpoint_fresh_start (s : TrainerState)
    (actor_lora critic_lora : Bool) :
    load_checkpoint_rl s actor_lora critic_lora (some none) = ((0, 0), s) ∧
    load_checkpoint_ds (some none) = (0, 0) :=
  ⟨rfl, rfl⟩

/-- Claim C7: in every mini-batch iteration of learn, if the policy loss or
the value loss is not-a-number the iteration raises a ValueError — an error
result carrying no performed backward or optimizer-step calls — and nothing
retries or swallows it. -/
theorem C7_nan_loss_raises (policy_loss value_loss : Option ℚ)
    (mode : TrainMode)
    (h : lossIsNaN policy_loss = true ∨ lossIsNaN value_loss = true) :
    ∃ msg, learnUpdate policy_loss value_loss mode = Except.error msg := by
  by_cases hp : lossIsNaN policy_loss = true
  · exact ⟨"Policy Loss is nan", by simp [learnUpdate, hp]⟩
  · rw [Bool.not_eq_true] at hp
    have hv : lossIsNaN value_loss = true := by
      rcases h with h' | h'
      · rw [hp] at h'; exact absurd h' (by decide)
      · exact h'
    exact ⟨"Value loss is nan", by simp [learnUpdate, hp, hv]⟩

/-- Witness for C7_nan_loss_raises at a concrete input: a NaN policy loss
and an ordinary value loss in the native mode. -/
theorem C7_nan_loss_raises_witness :
    ∃ msg, learnUpdate none (some 0) TrainMode.native = Except.error msg :=
  C7_nan_loss_raises none (some 0) TrainMode.native (Or.inl rfl)

/-- Claim C8: the per-example value loss equals the maximum of the squared
error of the current value clipped toward the old value within the critic
clip radius and the squared error of the unclipped current value, both
against the target reward; and at old value 0, new value 5, clip 1, target
reward 10 the clipped value is 1 and the loss is max(81, 25) = 81. -/
theorem C8_value_loss_formula :
    (∀ old_values values rewards critic_eps_clip : ℚ,
      valueLossExample old_values values rewards critic_eps_clip =
        max ((clampQ values (old_values - critic_eps_clip)
                (old_values + critic_eps_clip) - rewards) ^ 2)
          ((values - rewards) ^ 2)) ∧
    valueLossExample 0 5 10 1 = 81 := by
  constructor
  · intro o v r e
    have h1 : o + min (max (v - o) (-e)) e = min (max v (o - e)) (o + e) := by
      have e1 : o + (v - o) = v := by ring
      have e2 : o + -e = o - e := by ring
      rw [← min_add_add_left, ← max_add_add_left, e1, e2]
    simp only [valueLossExample, clampQ]
    rw [h1]
  · norm_num [valueLossExample, clampQ, min_def, max_def]

/-- Claim C9: check_model_family is symmetric — for every catalog and every
pair of model identifiers, the result is unchanged when the two identifiers
are swapped. -/
theorem C9_check_model_family_symm (hf_models : List String)
    (model1 model2 : String) :
    check_model_family hf_models model1 model2 =
      check_model_family hf_models model2 model1 := by
  unfold check_model_family
  cases h1 : hf_models.contains model1 <;> cases h2 : hf_models.contains model2
  · rfl
  · rfl
  · rfl
  · by_cases h3 : familyName model1 = familyName model2
    · simp [h3]
    · simp [h3, Ne.symm h3]

/-- Claim C10, counterexample. The claim states that a numeric stored score,
including 0, is returned converted to float. For the record with user input
"a", completion "b" and numeric score 0 the claim predicts the item
("ab", 0), but the truthiness test of reward.py line 111 sends score 0 to
the neutral default 2.5, so the returned item is ("ab", 2.5). -/
theorem C10_counterexample :
    ¬ (rewardDatasetGetItem ⟨"a", "b", JsonScore.num 0⟩ = ("ab", 0)) := by
  intro h
  have h2 : (rewardDatasetGetItem ⟨"a", "b", JsonScore.num 0⟩).2 = 0 := by
    rw [h]
  norm_num [rewardDatasetGetItem, scoreTruthy] at h2

/-- Claim C10, amended. Every reward-dataset item is the pair of user_input
concatenated with completion and a score that is the stored numeric score
converted to float whenever that score is numeric and nonzero, and the fixed
neutral score 2.5 when the stored score is null or the number 0. -/
theorem C10_getitem_score (r : RewardRecord) :
    (rewardDatasetGetItem r).1 = r.user_input ++ r.completion ∧
    ((r.score = JsonScore.null ∨ r.score = JsonScore.num 0) →
      (rewardDatasetGetItem r).2 = 5 / 2) ∧
    (∀ q : ℚ, r.score = JsonScore.num q → q ≠ 0 →
      (rewardDatasetGetItem r).2 = q) := by
  refine ⟨rfl, ?_, ?_⟩
  · rintro (h | h) <;> simp [rewardDatasetGetItem, scoreTruthy, h]
  · intro q hq hq0
    simp [rewardDatasetGetItem, scoreTruthy, hq, hq0, scoreToFloat]

/-- Witness for C10_getitem_score at a concrete input: the record with user
input "a", completion "b" and numeric score 3 yields score 3. -/
theorem C10_getitem_score_witness :
    (rewardDatasetGetItem ⟨"a", "b", JsonScore.num 3⟩).2 = 3 :=
  (C10_getitem_score ⟨"a", "b", JsonScore.num 3⟩).2.2 3 rfl (by norm_num)

end Chatllama
